import Mathlib

/-!
Verification of the Spy v2 backend (src/spyv2_backend.py).

The backend consists of two pure decision functions, `detect_trade_signal`
and `manage_risk`, plus a Flask request handler `execute_trade`.  Python
dictionaries of numeric market data are embedded as association lists over
`ℚ`; trade positions are embedded as a structure whose fields mirror the
dictionary keys the code reads (`entry_price`, `profit`, `loss`, `status`),
with an `extra` field standing for any further entries the dictionary may
carry.  JSON payloads are association lists over a small JSON value type,
and a missing/unparseable request body is `Option.none`.
-/

/-- A market-data dictionary: named numeric fields, as in the Python dict
passed to `detect_trade_signal`. -/
abbrev Dict := List (String × ℚ)

/-- `data.get(k, 0)`: the first value bound to key `k`, defaulting to 0
when the key is absent. -/
def dget (data : Dict) (k : String) : ℚ :=
  match List.find? (fun q => q.1 == k) data with
  | some q => q.2
  | none => 0

/-- `detect_trade_signal` from src/spyv2_backend.py lines 59-87:
reads ADX, price and VWAP (each defaulting to 0), returns
"Bullish Signal" when ADX > 25 and price > VWAP,
"Bearish Signal" when ADX > 25 and price < VWAP,
"No Trade" otherwise. -/
def detect_trade_signal (data : Dict) : String :=
  if dget data "ADX" > 25 ∧ dget data "price" > dget data "VWAP" then
    "Bullish Signal"
  else if dget data "ADX" > 25 ∧ dget data "price" < dget data "VWAP" then
    "Bearish Signal"
  else
    "No Trade"

/-- C1: for every snapshot, `detect_trade_signal` returns "Bullish Signal"
exactly when ADX > 25 and price > VWAP, "Bearish Signal" exactly when
ADX > 25 and price < VWAP, and "No Trade" in every other case. -/
theorem detect_trade_signal_cases (data : Dict) :
    (detect_trade_signal data = "Bullish Signal" ↔
      dget data "ADX" > 25 ∧ dget data "price" > dget data "VWAP") ∧
    (detect_trade_signal data = "Bearish Signal" ↔
      dget data "ADX" > 25 ∧ dget data "price" < dget data "VWAP") ∧
    (detect_trade_signal data = "No Trade" ↔
      ¬(dget data "ADX" > 25 ∧ dget data "price" > dget data "VWAP") ∧
      ¬(dget data "ADX" > 25 ∧ dget data "price" < dget data "VWAP")) := by
  unfold detect_trade_signal
  split_ifs with h1 h2 <;>
    refine ⟨?_, ?_, ?_⟩ <;> simp_all
  exact le_of_lt h1.2

/-- C6: `detect_trade_signal` is total: an absent field reads as 0, the
empty snapshot yields "No Trade", and every snapshot yields one of the
three signal labels. -/
theorem detect_trade_signal_total (data : Dict) (k : String)
    (h : List.find? (fun q => q.1 == k) data = none) :
    dget data k = 0 ∧
    detect_trade_signal [] = "No Trade" ∧
    (detect_trade_signal data = "Bullish Signal" ∨
     detect_trade_signal data = "Bearish Signal" ∨
     detect_trade_signal data = "No Trade") := by
  refine ⟨?_, by decide, ?_⟩
  · unfold dget
    rw [h]
  · unfold detect_trade_signal
    split_ifs <;> simp

/-- Witness for C6 at the empty snapshot and key "ADX". -/
theorem detect_trade_signal_total_witness :
    List.find? (fun q => q.1 == "ADX") ([] : Dict) = none ∧
    (dget [] "ADX" = 0 ∧
     detect_trade_signal [] = "No Trade" ∧
     (detect_trade_signal [] = "Bullish Signal" ∨
      detect_trade_signal [] = "Bearish Signal" ∨
      detect_trade_signal [] = "No Trade")) :=
  ⟨rfl, detect_trade_signal_total [] "ADX" rfl⟩

/-- A JSON value as it appears in a request payload or a stored row. -/
inductive JValue where
  | jnull : JValue
  | jbool : Bool → JValue
  | num : ℚ → JValue
  | str : String → JValue
deriving DecidableEq, Repr

/-- A trade position under risk management, mirroring the dictionary
`manage_risk` receives: the numeric keys `entry_price`, `profit` and
`loss` and the string key `status` may each be absent (`none`); `extra`
stands for any further entries of the dictionary, which `manage_risk`
never touches. -/
structure Trade where
  entry_price : Option ℚ
  profit : Option ℚ
  loss : Option ℚ
  status : Option String
  extra : List (String × JValue)
deriving DecidableEq, Repr

/-- `manage_risk` from src/spyv2_backend.py lines 89-121: if the entry
price (default 0) is 0 the trade is returned unchanged; otherwise the
status is set to "closed" when loss ≥ stop_loss × entry_price, else when
profit ≥ take_profit × entry_price; otherwise the trade is returned
unchanged.  The Python defaults are stop_loss = 1/2, take_profit = 1. -/
def manage_risk (trade : Trade) (stop_loss take_profit : ℚ) : Trade :=
  if trade.entry_price.getD 0 = 0 then trade
  else if trade.loss.getD 0 ≥ stop_loss * trade.entry_price.getD 0 then
    { trade with status := some "closed" }
  else if trade.profit.getD 0 ≥ take_profit * trade.entry_price.getD 0 then
    { trade with status := some "closed" }
  else trade

/-- C2: with a non-zero entry price, `manage_risk` closes the trade when
loss ≥ stop_loss × entry_price; otherwise closes it when
profit ≥ take_profit × entry_price; otherwise returns it unchanged.  Both
comparisons are inclusive. -/
theorem manage_risk_thresholds (t : Trade) (sl tp : ℚ)
    (h : t.entry_price.getD 0 ≠ 0) :
    (t.loss.getD 0 ≥ sl * t.entry_price.getD 0 →
      (manage_risk t sl tp).status = some "closed") ∧
    (t.loss.getD 0 < sl * t.entry_price.getD 0 →
      t.profit.getD 0 ≥ tp * t.entry_price.getD 0 →
      (manage_risk t sl tp).status = some "closed") ∧
    (t.loss.getD 0 < sl * t.entry_price.getD 0 →
      t.profit.getD 0 < tp * t.entry_price.getD 0 →
      manage_risk t sl tp = t) := by
  unfold manage_risk
  split_ifs with h0 hl hp
  · exact absurd h0 h
  · exact ⟨fun _ => rfl,
      fun hlt _ => absurd hl (not_le.mpr hlt),
      fun hlt _ => absurd hl (not_le.mpr hlt)⟩
  · exact ⟨fun hge => absurd hge hl,
      fun _ _ => rfl,
      fun _ hplt => absurd hp (not_le.mpr hplt)⟩
  · exact ⟨fun hge => absurd hge hl,
      fun _ hpge => absurd hpge hp,
      fun _ _ => rfl⟩

/-- Witness for C2: the spec's boundary test — entry price 400,
stop_loss 1/2, loss exactly 200 closes the trade. -/
theorem manage_risk_thresholds_witness :
    ((⟨some 400, some 0, some 200, some "open", []⟩ : Trade).entry_price.getD 0 ≠ 0) ∧
    (manage_risk ⟨some 400, some 0, some 200, some "open", []⟩ (1/2) 1).status
      = some "closed" :=
  ⟨by decide,
    (manage_risk_thresholds ⟨some 400, some 0, some 200, some "open", []⟩
      (1/2) 1 (by decide)).1 (by norm_num)⟩

/-- C3: a position whose entry price equals 0 is returned unchanged,
whatever its loss, profit, status and the multipliers. -/
theorem manage_risk_zero_entry (t : Trade) (sl tp : ℚ)
    (h : t.entry_price = some 0) :
    manage_risk t sl tp = t := by
  simp [manage_risk, h]

/-- Witness for C3: a zero-entry position with large loss and profit and
an open status is unchanged. -/
theorem manage_risk_zero_entry_witness :
    ((⟨some 0, some 999, some 999, some "open", []⟩ : Trade).entry_price = some 0) ∧
    manage_risk ⟨some 0, some 999, some 999, some "open", []⟩ (1/2) 1
      = ⟨some 0, some 999, some 999, some "open", []⟩ :=
  ⟨rfl, manage_risk_zero_entry ⟨some 0, some 999, some 999, some "open", []⟩ (1/2) 1 rfl⟩

/-- C10: a trade dictionary with no entry_price field defaults the entry
price to 0, so `manage_risk` returns it unchanged. -/
theorem manage_risk_absent_entry (t : Trade) (sl tp : ℚ)
    (h : t.entry_price = none) :
    manage_risk t sl tp = t := by
  simp [manage_risk, h]

/-- Witness for C10: a trade with no entry_price field, a huge loss and
an open status is unchanged. -/
theorem manage_risk_absent_entry_witness :
    ((⟨none, some 5, some 1000, some "open", []⟩ : Trade).entry_price = none) ∧
    manage_risk ⟨none, some 5, some 1000, some "open", []⟩ (1/2) 1
      = ⟨none, some 5, some 1000, some "open", []⟩ :=
  ⟨rfl, manage_risk_absent_entry ⟨none, some 5, some 1000, some "open", []⟩ (1/2) 1 rfl⟩

/-- C7: `manage_risk` changes at most the status field: entry price,
profit, loss and every other entry of the dictionary are unchanged. -/
theorem manage_risk_frame (t : Trade) (sl tp : ℚ) :
    (manage_risk t sl tp).entry_price = t.entry_price ∧
    (manage_risk t sl tp).profit = t.profit ∧
    (manage_risk t sl tp).loss = t.loss ∧
    (manage_risk t sl tp).extra = t.extra := by
  unfold manage_risk
  split_ifs <;> exact ⟨rfl, rfl, rfl, rfl⟩

/-- C8: a strictly negative entry price with non-negative loss and a
positive stop_loss multiplier always closes the trade: the guard only
covers entry price exactly 0, and the stop-loss threshold goes negative. -/
theorem manage_risk_negative_entry (t : Trade) (sl tp : ℚ)
    (h1 : t.entry_price.getD 0 < 0) (h2 : 0 ≤ t.loss.getD 0) (h3 : 0 < sl) :
    (manage_risk t sl tp).status = some "closed" := by
  have hne : t.entry_price.getD 0 ≠ 0 := ne_of_lt h1
  have hcl : sl * t.entry_price.getD 0 ≤ t.loss.getD 0 :=
    le_trans (le_of_lt (mul_neg_of_pos_of_neg h3 h1)) h2
  unfold manage_risk
  rw [if_neg hne, if_pos hcl]

/-- Witness for C8: entry price -100, absent loss field (defaults to 0),
stop_loss 1/2 — the trade is closed. -/
theorem manage_risk_negative_entry_witness :
    ((⟨some (-100), some 0, none, some "open", []⟩ : Trade).entry_price.getD 0 < 0) ∧
    (0 ≤ (⟨some (-100), some 0, none, some "open", []⟩ : Trade).loss.getD 0) ∧
    ((0 : ℚ) < 1/2) ∧
    (manage_risk ⟨some (-100), some 0, none, some "open", []⟩ (1/2) 1).status
      = some "closed" :=
  ⟨by decide, by decide, by norm_num,
    manage_risk_negative_entry ⟨some (-100), some 0, none, some "open", []⟩
      (1/2) 1 (by decide) (by decide) (by norm_num)⟩

/-- C9: the status of `manage_risk`'s result is either the input status
or "closed", and an already closed status stays closed. -/
theorem manage_risk_status_invariant (t : Trade) (sl tp : ℚ) :
    ((manage_risk t sl tp).status = t.status ∨
     (manage_risk t sl tp).status = some "closed") ∧
    (t.status = some "closed" → (manage_risk t sl tp).status = some "closed") := by
  unfold manage_risk
  split_ifs <;>
    first
      | exact ⟨Or.inl rfl, id⟩
      | exact ⟨Or.inr rfl, fun _ => rfl⟩

/-- Witness for C9: an already closed trade above the stop-loss threshold
keeps status "closed". -/
theorem manage_risk_status_invariant_witness :
    ((⟨some 400, some 0, some 300, some "closed", []⟩ : Trade).status = some "closed") ∧
    (manage_risk ⟨some 400, some 0, some 300, some "closed", []⟩ (1/2) 1).status
      = some "closed" :=
  ⟨rfl,
    (manage_risk_status_invariant ⟨some 400, some 0, some 300, some "closed", []⟩
      (1/2) 1).2 rfl⟩

/-- A JSON request body as received by the execute-trade endpoint: an
object, i.e. an association list of fields.  `Option.none` at the call
site stands for a missing or unparseable body. -/
abbrev Payload := List (String × JValue)

/-- `payload.get(k, default)`: first value bound to `k`, else the default. -/
def pget (p : Payload) (k : String) (default : JValue) : JValue :=
  match List.find? (fun q => q.1 == k) p with
  | some q => q.2
  | none => default

/-- A row inserted into the trades table, with the fields the endpoint
writes. -/
structure TradeRecord where
  signal : JValue
  broker : JValue
  capital_allocation : JValue
  entry_price : JValue
  status : JValue
  user_id : JValue
deriving DecidableEq, Repr

/-- The HTTP response of the execute-trade endpoint: a 400-class error
with a message, or a created-resource response carrying the inserted
row. -/
inductive ExecResponse where
  | error : Nat → String → ExecResponse
  | created : Nat → TradeRecord → ExecResponse
deriving DecidableEq, Repr

/-- The record `execute_trade` inserts, from src/spyv2_backend.py lines
150-165: per-field defaults for absent payload fields, status forced to
"executed". -/
def buildRecord (p : Payload) : TradeRecord :=
  { signal := pget p "signal" (JValue.str "No Signal")
    broker := pget p "broker" (JValue.str "Unknown")
    capital_allocation := pget p "capital_allocation" (JValue.num 0)
    entry_price := pget p "entry_price" (JValue.num 0)
    status := JValue.str "executed"
    user_id := pget p "user_id" JValue.jnull }

/-- `execute_trade` from src/spyv2_backend.py lines 131-167: a missing
body (`none`) or an empty object is falsy in Python, so the endpoint
answers 400 with the fixed message and performs no insert; otherwise it
inserts `buildRecord p` and answers 201 with the inserted row.  The
second component collects the store inserts performed. -/
def execute_trade (payload : Option Payload) : ExecResponse × List TradeRecord :=
  match payload with
  | none => (ExecResponse.error 400 "No JSON payload provided", [])
  | some p =>
    if p.isEmpty then (ExecResponse.error 400 "No JSON payload provided", [])
    else (ExecResponse.created 201 (buildRecord p), [buildRecord p])

/-- C4: `execute_trade` answers a 400 response with the exact message
"No JSON payload provided" precisely when the body is missing or empty,
and in that case performs no store insert. -/
theorem execute_trade_missing_payload (payload : Option Payload) :
    ((execute_trade payload).1 = ExecResponse.error 400 "No JSON payload provided" ↔
      payload = none ∨ payload = some []) ∧
    (payload = none ∨ payload = some [] → (execute_trade payload).2 = []) := by
  rcases payload with _ | p
  · simp [execute_trade]
  · cases p <;> simp [execute_trade]

/-- Witness for C4 at the missing body: the 400 response with the fixed
message, and no insert. -/
theorem execute_trade_missing_payload_witness :
    (execute_trade none).1 = ExecResponse.error 400 "No JSON payload provided" ∧
    (execute_trade none).2 = [] :=
  ⟨(execute_trade_missing_payload none).1.mpr (Or.inl rfl),
   (execute_trade_missing_payload none).2 (Or.inl rfl)⟩

/-- C5: for a non-empty payload the endpoint inserts exactly one record,
whose status is forced to "executed" whatever the payload's status field,
and whose fields default to "No Signal", "Unknown", 0, 0 and null when
absent from the payload. -/
theorem execute_trade_inserted_record (p : Payload) (h : p ≠ []) :
    (execute_trade (some p)).1 = ExecResponse.created 201 (buildRecord p) ∧
    (execute_trade (some p)).2 = [buildRecord p] ∧
    (buildRecord p).status = JValue.str "executed" ∧
    (List.find? (fun q => q.1 == "signal") p = none →
      (buildRecord p).signal = JValue.str "No Signal") ∧
    (List.find? (fun q => q.1 == "broker") p = none →
      (buildRecord p).broker = JValue.str "Unknown") ∧
    (List.find? (fun q => q.1 == "capital_allocation") p = none →
      (buildRecord p).capital_allocation = JValue.num 0) ∧
    (List.find? (fun q => q.1 == "entry_price") p = none →
      (buildRecord p).entry_price = JValue.num 0) ∧
    (List.find? (fun q => q.1 == "user_id") p = none →
      (buildRecord p).user_id = JValue.jnull) := by
  have hne : p.isEmpty = false := by
    cases p with
    | nil => exact absurd rfl h
    | cons a l => rfl
  refine ⟨by simp [execute_trade, hne], by simp [execute_trade, hne], rfl,
    ?_, ?_, ?_, ?_, ?_⟩ <;>
    (intro hf
     unfold buildRecord pget
     rw [hf])

/-- Witness for C5: a payload carrying only a status field "open" — the
inserted record still has status "executed" and every other field takes
its default. -/
theorem execute_trade_inserted_record_witness :
    (([("status", JValue.str "open")] : Payload) ≠ []) ∧
    (execute_trade (some [("status", JValue.str "open")])).2
      = [buildRecord [("status", JValue.str "open")]] ∧
    (buildRecord [("status", JValue.str "open")]).status = JValue.str "executed" ∧
    (buildRecord [("status", JValue.str "open")]).signal = JValue.str "No Signal" ∧
    (buildRecord [("status", JValue.str "open")]).broker = JValue.str "Unknown" ∧
    (buildRecord [("status", JValue.str "open")]).capital_allocation = JValue.num 0 ∧
    (buildRecord [("status", JValue.str "open")]).entry_price = JValue.num 0 ∧
    (buildRecord [("status", JValue.str "open")]).user_id = JValue.jnull :=
  ⟨by decide,
   (execute_trade_inserted_record [("status", JValue.str "open")] (by decide)).2.1,
   (execute_trade_inserted_record [("status", JValue.str "open")] (by decide)).2.2.1,
   (execute_trade_inserted_record [("status", JValue.str "open")] (by decide)).2.2.2.1 rfl,
   (execute_trade_inserted_record [("status", JValue.str "open")] (by decide)).2.2.2.2.1 rfl,
   (execute_trade_inserted_record [("status", JValue.str "open")] (by decide)).2.2.2.2.2.1 rfl,
   (execute_trade_inserted_record [("status", JValue.str "open")] (by decide)).2.2.2.2.2.2.1 rfl,
   (execute_trade_inserted_record [("status", JValue.str "open")] (by decide)).2.2.2.2.2.2.2 rfl⟩
